import Mathlib

/-!
Shallow embedding of the per-bot trading loop of the binance-trading-bot
repository (bot worker source: `src/unnamed/part_002`), together with
theorems checking the specification's claims about it.

Numbers are modelled as `ℚ`.  JavaScript `undefined`/`null`/missing or
non-numeric fields are modelled as `Option ℚ` (`none` = absent/NaN), the
`Number(x) || d` idiom as `numOr`, and `toNumber(v, fallback)` as `toNumber`.
All definitions follow the worker source; line references are given on each
definition.
-/

namespace BinanceBot

/-- The worker's `toNumber(v, fallback)` (lines 17-21): `undefined`, `null`,
the empty string and non-finite values fall back; a finite number is kept.
`none` encodes all the fallback cases. -/
def toNumber (v : Option ℚ) (fallback : ℚ) : ℚ := v.getD fallback

/-- JavaScript `x || d` on a possibly-missing numeric field: a missing value
or `0` (both falsy) yields the default. -/
def numOr (v : Option ℚ) (d : ℚ) : ℚ :=
  match v with
  | none => d
  | some q => if q = 0 then d else q

/-- The worker's `roundStep(value, step)` (lines 101-105): floors `value` to a
multiple of `step`; a non-positive step returns the value unchanged. -/
def roundStep (value step : ℚ) : ℚ :=
  if step ≤ 0 then value
  else
    let inv := 1 / step
    ((⌊value * inv⌋ : ℤ) : ℚ) / inv

/-- Market kind of a bot; `config.market === 'futures' ? 'futures' : 'spot'`
(line 417) normalises every other value to `spot`. -/
inductive Market where
  | spot
  | futures
deriving DecidableEq

/-- Order side strings `'BUY'` / `'SELL'`. -/
inductive Side where
  | BUY
  | SELL
deriving DecidableEq

/-- Order type; every order the worker places is a `MARKET` order
(lines 551, 611, 632, 755, 777). -/
inductive OrdType where
  | MARKET
deriving DecidableEq

/-- Signal values produced by `computeSignal` (lines 185-192). -/
inductive Signal where
  | LONG
  | SHORT
  | HOLD
deriving DecidableEq

/-- Persisted tick status values (`state.status` in `runBot`). -/
inductive Status where
  | DISABLED
  | RUNNING
  | BLOCKED
  | ERROR
deriving DecidableEq

/-- Close reasons produced by `checkStopLossTakeProfit` (lines 292-298). -/
inductive CloseReason where
  | STOP_LOSS
  | TAKE_PROFIT
deriving DecidableEq

/-- Loss-breaker reasons produced by `checkMaxLoss` (lines 319-335). -/
inductive LossReason where
  | MAX_DAILY_LOSS
  | MAX_TOTAL_LOSS
deriving DecidableEq

/-- Decision reasons written into `decision.reason` by `runBot`. -/
inductive DecReason where
  | HOLD
  | MA_CROSS
  | QTY_INVALID
  | COOLDOWN
  | POSITION_EXISTS
  | STOP_LOSS
  | TAKE_PROFIT
deriving DecidableEq

/-- The `reason` field of a stop-loss/take-profit close decision echoes the
close reason (lines 534-541). -/
def DecReason.ofClose : CloseReason → DecReason
  | .STOP_LOSS => .STOP_LOSS
  | .TAKE_PROFIT => .TAKE_PROFIT

/-- Decision actions written into `decision.action` by `runBot`. -/
inductive Action where
  | NONE
  | BUY
  | SELL
  | DRY_BUY
  | DRY_SELL
  | CLOSE (r : CloseReason)
  | DRY_CLOSE (r : CloseReason)
deriving DecidableEq

/-- A tick's decision record (action, reason, quantity); display-only fields
of the source record (signal, lastPrice, pnl) are projected away. -/
structure Decision where
  action : Action
  reason : DecReason
  qty : ℚ
deriving DecidableEq

/-- An order request sent to the exchange (`futuresOrder`/`spotOrder`
params). -/
structure OrderReq where
  side : Side
  type : OrdType
  quantity : ℚ
  reduceOnly : Bool
deriving DecidableEq

/-- Fields of `config.strategy` (defaults applied in `runBot`, lines 455-460). -/
structure Strategy where
  fastPeriod : Option ℚ
  slowPeriod : Option ℚ
deriving DecidableEq

/-- Fields of `config.risk`; each may be absent or non-numeric. -/
structure RiskConfig where
  orderQuoteAmount : Option ℚ
  leverage : Option ℚ
  quantityStep : Option ℚ
  stopLossPercent : Option ℚ
  takeProfitPercent : Option ℚ
  maxDailyLossPercent : Option ℚ
  maxTotalLossPercent : Option ℚ
deriving DecidableEq

/-- Fields of the `config.position` policy. -/
structure PositionPolicy where
  preventDuplicateOrders : Option Bool
  cooldownCandles : Option ℚ
deriving DecidableEq

/-- The dry-run virtual ledger `config.virtualBalance`. -/
structure VirtualBalance where
  initialQuoteBalance : ℚ
  currentQuoteBalance : ℚ
  currentBaseBalance : ℚ
deriving DecidableEq

/-- The default virtual ledger created when `config.virtualBalance` is
missing (lines 352-356, 660-664). -/
def defaultVirtualBalance : VirtualBalance :=
  { initialQuoteBalance := 1000, currentQuoteBalance := 1000, currentBaseBalance := 0 }

/-- A bot's configuration, restricted to the fields the trading loop's
decision logic reads. -/
structure BotConfig where
  enabled : Bool
  market : Market
  dryRun : Bool
  strategy : Option Strategy
  risk : Option RiskConfig
  position : Option PositionPolicy
  virtualBalance : Option VirtualBalance
deriving DecidableEq

/-- Per-bot in-memory runtime counters (`initBotRuntime`, lines 262-273). -/
structure Runtime where
  lastOrderCandle : ℚ
  candleCount : ℚ
  dailyLoss : ℚ
  totalLoss : ℚ
  dailyResetTime : ℚ
deriving DecidableEq

/-- One entry of the futures `positionRisk` response after `Number(...)`
coercion of the fields the loop reads (lines 499-502). -/
structure FPosition where
  positionAmt : ℚ
  entryPrice : ℚ
  markPrice : ℚ
  unRealizedProfit : ℚ
deriving DecidableEq

/-- The `state.position` record handed to `checkStopLossTakeProfit` in the
futures branch (lines 510-516): `markPrice` is `null` when no position row
was returned. -/
structure StatePosition where
  positionAmt : ℚ
  entryPrice : ℚ
  markPrice : Option ℚ
deriving DecidableEq

/-- Result of `checkStopLossTakeProfit`: close reason and the sign-adjusted
percentage P&L. -/
structure SlTp where
  reason : CloseReason
  pnl : ℚ
deriving DecidableEq

/-- Result of `checkMaxLoss` (loss-limit display amounts projected away). -/
structure LossCheck where
  allowed : Bool
  reason : Option LossReason
deriving DecidableEq

/-! ### Signal Engine (lines 94-99, 185-192) -/

/-- The worker's `sma(values, period)` (lines 94-99): `null` when fewer
samples than the period exist, otherwise the mean of the trailing window.
`slice(length - period)` truncates its (non-negative, since the length guard
passed) start index, modelled by `Int.toNat ⌊·⌋`.  Periods reaching this
function from the loop are ≥ 1 (see `effFastPeriod`/`effSlowPeriod`). -/
def sma (values : List ℚ) (period : ℚ) : Option ℚ :=
  if (values.length : ℚ) < period then none
  else some ((values.drop (Int.toNat ⌊(values.length : ℚ) - period⌋)).sum / period)

/-- Output of `computeSignal`. -/
structure SignalOut where
  signal : Signal
  fast : Option ℚ
  slow : Option ℚ
deriving DecidableEq

/-- The worker's `computeSignal` (lines 185-192). -/
def computeSignal (closes : List ℚ) (fastPeriod slowPeriod : ℚ) : SignalOut :=
  let fast := sma closes fastPeriod
  let slow := sma closes slowPeriod
  match fast, slow with
  | some f, some s =>
    if f > s then ⟨.LONG, fast, slow⟩
    else if f < s then ⟨.SHORT, fast, slow⟩
    else ⟨.HOLD, fast, slow⟩
  | _, _ => ⟨.HOLD, fast, slow⟩

/-! ### Period sanitization (lines 455-460) -/

/-- Effective fast period: `Math.max(1, toNumber(strat.fastPeriod, 9))`
with `strat = config.strategy || an empty record` (lines 455-456). -/
def effFastPeriod (config : BotConfig) : ℚ :=
  max 1 (toNumber (config.strategy.bind Strategy.fastPeriod) 9)

/-- Effective slow period:
`Math.max(fastPeriod + 1, toNumber(strat.slowPeriod, 21))` (lines 457-460). -/
def effSlowPeriod (config : BotConfig) : ℚ :=
  max (effFastPeriod config + 1) (toNumber (config.strategy.bind Strategy.slowPeriod) 21)

/-! ### Risk Engine checks (lines 275-348) -/

/-- The mark price used by `checkStopLossTakeProfit`:
`Number(position.markPrice) || entryPrice` (line 282). -/
def slTpMarkPrice (p : StatePosition) : ℚ :=
  match p.markPrice with
  | none => p.entryPrice
  | some m => if m = 0 then p.entryPrice else m

/-- The sign-adjusted percentage P&L of `checkStopLossTakeProfit`
(lines 285-287). -/
def slTpActualPnl (p : StatePosition) : ℚ :=
  let pnlPercent := (slTpMarkPrice p - p.entryPrice) / p.entryPrice * 100
  if p.positionAmt > 0 then pnlPercent else -pnlPercent

/-- The worker's `checkStopLossTakeProfit(position, config)` (lines 275-301). -/
def checkStopLossTakeProfit (position : Option StatePosition) (config : BotConfig) :
    Option SlTp :=
  match position, config.risk with
  | none, _ => none
  | _, none => none
  | some p, some risk =>
    if |p.positionAmt| = 0 then none
    else if p.entryPrice = 0 ∨ slTpMarkPrice p = 0 then none
    else
      let actualPnl := slTpActualPnl p
      let stopLoss := numOr risk.stopLossPercent 1
      let takeProfit := numOr risk.takeProfitPercent (3/2)
      if actualPnl ≤ -stopLoss then some ⟨.STOP_LOSS, actualPnl⟩
      else if actualPnl ≥ takeProfit then some ⟨.TAKE_PROFIT, actualPnl⟩
      else none

/-- Milliseconds in a day (line 307). -/
def dayMs : ℚ := 24 * 60 * 60 * 1000

/-- The daily-loss window reset performed at the top of `checkMaxLoss`
(lines 306-311). -/
def applyDailyReset (runtime : Runtime) (now : ℚ) : Runtime :=
  if now - runtime.dailyResetTime > dayMs then
    { runtime with dailyLoss := 0, dailyResetTime := now }
  else runtime

/-- The worker's `checkMaxLoss(runtime, config, walletBalance)`
(lines 303-338); the in-place runtime mutation is returned explicitly and
`Date.now()` is the `now` argument. -/
def checkMaxLoss (runtime : Runtime) (config : BotConfig) (walletBalance : ℚ)
    (now : ℚ) : Runtime × LossCheck :=
  match config.risk with
  | none => (runtime, ⟨true, none⟩)
  | some risk =>
    let rt := applyDailyReset runtime now
    let maxDailyPercent := numOr risk.maxDailyLossPercent 5
    let maxTotalPercent := numOr risk.maxTotalLossPercent 10
    let maxDailyUSDT := walletBalance * maxDailyPercent / 100
    let maxTotalUSDT := walletBalance * maxTotalPercent / 100
    if rt.dailyLoss ≥ maxDailyUSDT then (rt, ⟨false, some .MAX_DAILY_LOSS⟩)
    else if rt.totalLoss ≥ maxTotalUSDT then (rt, ⟨false, some .MAX_TOTAL_LOSS⟩)
    else (rt, ⟨true, none⟩)

/-- The worker's `checkCooldown(runtime, config)` (lines 340-348). -/
def checkCooldown (runtime : Runtime) (config : BotConfig) : Bool :=
  match config.position with
  | none => true
  | some pol =>
    let cooldown := numOr pol.cooldownCandles 0
    if cooldown = 0 then true
    else decide (runtime.candleCount - runtime.lastOrderCandle ≥ cooldown)

/-! ### Order Execution Gateway, simulated mode (lines 350-372) -/

/-- The worker's `updateVirtualBalance(config, side, qty, price)`
(lines 350-372), as a transformer of the ledger it mutates; a missing ledger
is initialised to the default first. -/
def updateVirtualBalance (vb0 : Option VirtualBalance) (side : Side)
    (qty price : ℚ) : VirtualBalance :=
  let vb := vb0.getD defaultVirtualBalance
  match side with
  | .BUY =>
    { vb with
      currentQuoteBalance := vb.currentQuoteBalance - qty * price
      currentBaseBalance := vb.currentBaseBalance + qty }
  | .SELL =>
    { vb with
      currentQuoteBalance := vb.currentQuoteBalance + qty * price
      currentBaseBalance := vb.currentBaseBalance - qty }

/-! ### Entry sizing (lines 566-579 futures, 719-727 spot) -/

/-- The last close `closes[closes.length - 1]`; `none` models the `undefined` read from an
empty array. -/
def entryLastPrice (closes : List ℚ) : Option ℚ := closes.getLast?

/-- The order notional `Math.max(0, toNumber(config.risk?.orderQuoteAmount, 20))`
(lines 566-569, 719-722). -/
def entryQuoteAmount (config : BotConfig) : ℚ :=
  max 0 (toNumber (config.risk.bind RiskConfig.orderQuoteAmount) 20)

/-- The step size `toNumber(config.risk?.quantityStep, 0.0001)` (lines 572, 726). -/
def entryStepSize (config : BotConfig) : ℚ :=
  toNumber (config.risk.bind RiskConfig.quantityStep) (1/10000)

/-- The raw quantity `lastPrice > 0 ? quoteAmount / lastPrice : 0` (lines 571, 723); a missing
last price compares false. -/
def entryRawQty (config : BotConfig) (closes : List ℚ) : ℚ :=
  match entryLastPrice closes with
  | some lp => if lp > 0 then entryQuoteAmount config / lp else 0
  | none => 0

/-- The rounded quantity `roundStep(rawQty, stepSize)` (lines 573, 724-727). -/
def entryQty (config : BotConfig) (closes : List ℚ) : ℚ :=
  roundStep (entryRawQty config closes) (entryStepSize config)

/-- The validity check `qty >= minQty && notionalValue >= minNotional` with `minQty = stepSize`
and `minNotional = 5` (lines 575-579); a `NaN` notional (missing last price)
compares false. -/
def entryQtyValid (config : BotConfig) (closes : List ℚ) : Bool :=
  decide (entryQty config closes ≥ entryStepSize config) &&
    (match entryLastPrice closes with
     | some lp => decide (entryQty config closes * lp ≥ 5)
     | none => false)

/-! ### The per-tick state machine (`runBot`, lines 374-808) -/

/-- Input of one tick: the values the tick's network fetches returned. -/
structure TickInput where
  closes : List ℚ
  walletBalance : ℚ
  position : Option FPosition
  now : ℚ
deriving DecidableEq

/-- Output of one tick: persisted status, the decision produced this tick
(`none` when the tick produced no new decision record), live orders sent,
updated runtime counters and the config's virtual ledger after the tick. -/
structure TickOut where
  status : Status
  decision : Option Decision
  orders : List OrderReq
  runtime : Runtime
  virtualBalance : Option VirtualBalance
deriving DecidableEq

/-- The position amount `positions[0] ? Number(pos.positionAmt) : 0` (line 499). -/
def futuresPositionAmt (inp : TickInput) : ℚ :=
  (inp.position.map FPosition.positionAmt).getD 0

/-- The `state.position` record built in the futures branch (lines 499-516). -/
def futuresStatePosition (inp : TickInput) : StatePosition :=
  { positionAmt := futuresPositionAmt inp
    entryPrice := (inp.position.map FPosition.entryPrice).getD 0
    markPrice := inp.position.map FPosition.markPrice }

/-- The stop-loss/take-profit close branch of the futures tick
(lines 530-564). -/
def futuresClose (config : BotConfig) (rt : Runtime) (inp : TickInput)
    (r : SlTp) : TickOut :=
  let positionAmt := futuresPositionAmt inp
  let closeSide := if positionAmt > 0 then Side.SELL else Side.BUY
  let closeQty := |positionAmt|
  let decision : Decision :=
    { action := if config.dryRun then .DRY_CLOSE r.reason else .CLOSE r.reason
      reason := DecReason.ofClose r.reason
      qty := closeQty }
  let orders : List OrderReq :=
    if config.dryRun then []
    else [{ side := closeSide, type := .MARKET, quantity := closeQty, reduceOnly := true }]
  let rt := { rt with lastOrderCandle := rt.candleCount }
  let lossUSDT := |(inp.position.map FPosition.unRealizedProfit).getD 0|
  let rt :=
    if r.pnl < 0 then
      { rt with dailyLoss := rt.dailyLoss + lossUSDT, totalLoss := rt.totalLoss + lossUSDT }
    else rt
  { status := .RUNNING, decision := some decision, orders := orders,
    runtime := rt, virtualBalance := config.virtualBalance }

/-- The entry/exit decision branch of the futures tick (lines 565-646). -/
def futuresEntry (config : BotConfig) (rt : Runtime) (inp : TickInput)
    (sig : SignalOut) : TickOut :=
  let positionAmt := futuresPositionAmt inp
  let qty := entryQty config inp.closes
  let qtyValid := entryQtyValid config inp.closes
  let decision0 : Decision := { action := .NONE, reason := .HOLD, qty := qty }
  let hasPosition : Bool := decide (|positionAmt| > 0)
  let preventDuplicate := (config.position.bind PositionPolicy.preventDuplicateOrders).getD true
  let canOrder := !hasPosition || !preventDuplicate
  let cooldownOk := checkCooldown rt config
  let noChange : TickOut :=
    { status := .RUNNING, decision := some decision0, orders := [],
      runtime := rt, virtualBalance := config.virtualBalance }
  if qtyValid && canOrder && cooldownOk then
    if sig.signal = .LONG ∧ positionAmt ≤ 0 then
      { status := .RUNNING
        decision := some { action := if config.dryRun then .DRY_BUY else .BUY,
                           reason := .MA_CROSS, qty := qty }
        orders := if config.dryRun then []
                  else [{ side := .BUY, type := .MARKET, quantity := qty, reduceOnly := false }]
        runtime := { rt with lastOrderCandle := rt.candleCount }
        virtualBalance := config.virtualBalance }
    else if sig.signal = .SHORT ∧ positionAmt ≥ 0 then
      { status := .RUNNING
        decision := some { action := if config.dryRun then .DRY_SELL else .SELL,
                           reason := .MA_CROSS, qty := qty }
        orders := if config.dryRun then []
                  else [{ side := .SELL, type := .MARKET, quantity := qty, reduceOnly := false }]
        runtime := { rt with lastOrderCandle := rt.candleCount }
        virtualBalance := config.virtualBalance }
    else noChange
  else if !qtyValid then
    { noChange with decision := some { decision0 with reason := .QTY_INVALID } }
  else if !cooldownOk then
    { noChange with decision := some { decision0 with reason := .COOLDOWN } }
  else if hasPosition && preventDuplicate then
    { noChange with decision := some { decision0 with reason := .POSITION_EXISTS } }
  else noChange

/-- The futures branch of the tick (lines 475-650): loss breaker, then
stop-loss/take-profit, then the entry/exit decision. -/
def futuresTick (config : BotConfig) (rt : Runtime) (inp : TickInput)
    (sig : SignalOut) : TickOut :=
  let res := checkMaxLoss rt config inp.walletBalance inp.now
  if !res.2.allowed then
    { status := .BLOCKED, decision := none, orders := [],
      runtime := res.1, virtualBalance := config.virtualBalance }
  else
    match checkStopLossTakeProfit (some (futuresStatePosition inp)) config with
    | some r =>
      if |futuresPositionAmt inp| > 0 then futuresClose config res.1 inp r
      else futuresEntry config res.1 inp sig
    | none => futuresEntry config res.1 inp sig

/-- The spot branch of the tick (lines 651-788): no risk checks; a buy/sell
is gated only by `qty > 0` and the signal.  In dry-run mode a missing virtual
ledger is initialised before trading (lines 658-665). -/
def spotTick (config : BotConfig) (rt : Runtime) (inp : TickInput)
    (sig : SignalOut) : TickOut :=
  let lastPrice := entryLastPrice inp.closes
  let vb0 : Option VirtualBalance :=
    if config.dryRun then some (config.virtualBalance.getD defaultVirtualBalance)
    else config.virtualBalance
  let qty := entryQty config inp.closes
  let hold : TickOut :=
    { status := .RUNNING, decision := some { action := .NONE, reason := .HOLD, qty := qty },
      orders := [], runtime := rt, virtualBalance := vb0 }
  if qty > 0 then
    if sig.signal = .LONG then
      { status := .RUNNING
        decision := some { action := if config.dryRun then .DRY_BUY else .BUY,
                           reason := .MA_CROSS, qty := qty }
        orders := if config.dryRun then []
                  else [{ side := .BUY, type := .MARKET, quantity := qty, reduceOnly := false }]
        runtime := rt
        virtualBalance := if config.dryRun then
            some (updateVirtualBalance vb0 .BUY qty (lastPrice.getD 0))
          else vb0 }
    else if sig.signal = .SHORT then
      { status := .RUNNING
        decision := some { action := if config.dryRun then .DRY_SELL else .SELL,
                           reason := .MA_CROSS, qty := qty }
        orders := if config.dryRun then []
                  else [{ side := .SELL, type := .MARKET, quantity := qty, reduceOnly := false }]
        runtime := rt
        virtualBalance := if config.dryRun then
            some (updateVirtualBalance vb0 .SELL qty (lastPrice.getD 0))
          else vb0 }
    else hold
  else hold

/-- One tick of `runBot`'s `while (true)` body after the config refresh
(lines 416-788): the disabled check, the candle-count increment (line 442),
signal computation with sanitized periods (lines 455-466), then the
market-specific branch. -/
def runTick (config : BotConfig) (rt : Runtime) (inp : TickInput) : TickOut :=
  if !config.enabled then
    { status := .DISABLED, decision := none, orders := [],
      runtime := rt, virtualBalance := config.virtualBalance }
  else
    let rt1 := { rt with candleCount := rt.candleCount + 1 }
    let sig := computeSignal inp.closes (effFastPeriod config) (effSlowPeriod config)
    match config.market with
    | .futures => futuresTick config rt1 inp sig
    | .spot => spotTick config rt1 inp sig

/-! ### The loop boundary (lines 795-808) -/

/-- A thrown JavaScript error as caught by the loop: `e.message` and the
optional `e.response` body attached by `binanceRequest` (lines 73-77). -/
structure JsError where
  message : String
  response : Option String
deriving DecidableEq

/-- The persisted snapshot fields the catch block writes (lines 796-801). -/
structure Snapshot where
  ok : Bool
  status : Status
  error : Option JsError
deriving DecidableEq

/-- What the loop does after one iteration: `runBot` is `while (true)` with
no `break` or `return`, so both the success path and the catch block fall
through to the pacing sleep and the next iteration (lines 795-808). -/
inductive LoopCtl where
  | nextTick
  | stopLoop
deriving DecidableEq

/-- One iteration of the loop boundary: a successful tick persists its
status; a thrown error is caught, persisted as status `ERROR` carrying the
message and response detail (lines 795-803), and the loop continues. -/
def runBotIteration (tickResult : Except JsError TickOut) : Snapshot × LoopCtl :=
  match tickResult with
  | .ok out => ({ ok := true, status := out.status, error := none }, .nextTick)
  | .error e => ({ ok := false, status := .ERROR, error := some e }, .nextTick)

/-- A whole tick at the loop boundary: the fetch/compute/decide/execute
pipeline either yields its input values or throws, and `runTick` consumes
the values; the boundary catches. -/
def runBotTick (config : BotConfig) (rt : Runtime)
    (fetched : Except JsError TickInput) : Snapshot × LoopCtl :=
  runBotIteration (fetched.map (runTick config rt))

/-! ### Scheduler (`main`/`syncBots`, lines 811-869) -/

/-- A row of `getAllBots()` as `syncBots` reads it. -/
structure Bot where
  id : ℕ
  useTestnet : Bool
deriving DecidableEq

/-- Scheduler state: the `runningBots` bookkeeping map's key set, the
multiset of loops actually started and still running (loops in the source
run forever: `runBot` never returns and no stop mechanism exists), and the
stop signals ever delivered to a loop (the source has none). -/
structure SchedulerState where
  runningBots : List ℕ
  liveLoops : List ℕ
  stopSignals : List ℕ
deriving DecidableEq

/-- The per-bot start step of `syncBots` (lines 830-851): skip ids already
in the bookkeeping map, skip bots whose environment has no credentials,
otherwise record the id and start a loop. -/
def schedStartStep (hasTestnetCreds hasMainnetCreds : Bool)
    (s : SchedulerState) (bot : Bot) : SchedulerState :=
  if s.runningBots.contains bot.id then s
  else if !(if bot.useTestnet then hasTestnetCreds else hasMainnetCreds) then s
  else
    { s with
      runningBots := s.runningBots ++ [bot.id]
      liveLoops := s.liveLoops ++ [bot.id] }

/-- The worker's `syncBots()` (lines 827-859): start loops for unseen ids,
then drop ids whose config disappeared from the bookkeeping map.  No stop
signal is delivered and no loop is ended (lines 853-858 only call
`runningBots.delete`). -/
def syncBots (hasTestnetCreds hasMainnetCreds : Bool) (bots : List Bot)
    (s : SchedulerState) : SchedulerState :=
  let s1 := bots.foldl (schedStartStep hasTestnetCreds hasMainnetCreds) s
  let currentIds := bots.map Bot.id
  { s1 with runningBots := s1.runningBots.filter (fun i => currentIds.contains i) }

/-! ### Concrete fixtures used by witnesses and counterexamples -/

/-- A dry-run spot bot with a 1/2-candle strategy, a 5% daily loss limit and
a 3-candle cooldown. -/
def spotFixtureConfig : BotConfig :=
  { enabled := true, market := .spot, dryRun := true
    strategy := some ⟨some 1, some 2⟩
    risk := some ⟨none, none, none, none, none, some 5, none⟩
    position := some ⟨some true, some 3⟩
    virtualBalance := some ⟨1000, 1000, 0⟩ }

/-- Runtime counters with an order just placed (candle 4) and an accumulated
daily loss of 1000. -/
def spotFixtureRuntime : Runtime := ⟨4, 4, 1000, 0, 0⟩

/-- A rising two-close series with wallet balance 1000 and no open
position. -/
def spotFixtureInput : TickInput := ⟨[1, 2], 1000, none, 0⟩

/-- A dry-run futures bot with a 1/2-candle strategy and a 5% daily loss
limit. -/
def futuresFixtureConfig : BotConfig :=
  { enabled := true, market := .futures, dryRun := true
    strategy := some ⟨some 1, some 2⟩
    risk := some ⟨none, none, none, none, none, some 5, none⟩
    position := none
    virtualBalance := none }

/-- Runtime counters with accumulated daily loss 49.9. -/
def runtimeDaily499 : Runtime := ⟨0, 0, 499/10, 0, 0⟩

/-- Runtime counters with accumulated daily loss 50.1. -/
def runtimeDaily501 : Runtime := ⟨0, 0, 501/10, 0, 0⟩

/-- Tick input with wallet balance 1000, no candles and no position. -/
def futuresFixtureInput : TickInput := ⟨[], 1000, none, 0⟩

/-- A futures bot with stop-loss 1.0% and take-profit 1.5%. -/
def slTpFixtureConfig : BotConfig :=
  { enabled := true, market := .futures, dryRun := true
    strategy := none
    risk := some ⟨none, none, none, some 1, some (3/2), none, none⟩
    position := none, virtualBalance := none }

/-- A futures bot with no risk block, a 1/2-candle strategy and a 3-candle
cooldown. -/
def cooldownFixtureConfig : BotConfig :=
  { enabled := true, market := .futures, dryRun := true
    strategy := some ⟨some 1, some 2⟩
    risk := none
    position := some ⟨some true, some 3⟩
    virtualBalance := none }

/-- A rising two-close series with no open position. -/
def cooldownFixtureInput : TickInput := ⟨[1, 2], 0, none, 0⟩

/-- The scheduler invariant the amended C9 preserves: no bot id has two
live loops, and every live loop is still tracked in the bookkeeping set. -/
def SchedInv (s : SchedulerState) : Prop :=
  s.liveLoops.Nodup ∧ ∀ id ∈ s.liveLoops, id ∈ s.runningBots

/-! ### C5: dry-run virtual ledger arithmetic -/

/-- C5: a dry-run BUY of `q` at `p` subtracts exactly `q*p` from the virtual
quote balance and adds exactly `q` to the virtual base balance, leaving the
initial balance untouched; a SELL is the exact inverse (buying then selling
the same `(q, p)` restores the ledger); a missing ledger behaves as the
default one.  The embedded operation is a pure function of `(ledger, side,
q, p)`, so it is deterministic and involves no network interaction. -/
theorem virtual_ledger_buy_sell_exact (vb : VirtualBalance) (q p : ℚ) :
    updateVirtualBalance (some vb) .BUY q p =
      { vb with currentQuoteBalance := vb.currentQuoteBalance - q * p
                currentBaseBalance := vb.currentBaseBalance + q } ∧
    updateVirtualBalance (some vb) .SELL q p =
      { vb with currentQuoteBalance := vb.currentQuoteBalance + q * p
                currentBaseBalance := vb.currentBaseBalance - q } ∧
    updateVirtualBalance (some (updateVirtualBalance (some vb) .BUY q p)) .SELL q p = vb ∧
    (∀ side, updateVirtualBalance none side q p =
      updateVirtualBalance (some defaultVirtualBalance) side q p) := by
  refine ⟨rfl, rfl, ?_, ?_⟩
  · simp only [updateVirtualBalance, Option.getD_some]
    cases vb with
    | mk i c b =>
      simp only [VirtualBalance.mk.injEq, true_and, and_true, eq_self_iff_true]
      constructor <;> ring
  · intro side
    cases side <;> rfl

/-! ### C10: moving-average window sanitization -/

/-- C10: on every enabled tick the loop computes the signal with the
sanitized windows: the effective fast period is `max(1, configured fast)`
and the effective slow period is `max(fast + 1, configured slow)`, so
`1 ≤ fast` and `fast < slow` hold for every stored configuration, including
absent or non-numeric values (which `toNumber` replaces by the defaults 9
and 21). -/
theorem period_sanitization_invariant (config : BotConfig) :
    effFastPeriod config = max 1 (toNumber (config.strategy.bind Strategy.fastPeriod) 9) ∧
    effSlowPeriod config =
      max (effFastPeriod config + 1) (toNumber (config.strategy.bind Strategy.slowPeriod) 21) ∧
    1 ≤ effFastPeriod config ∧
    effFastPeriod config + 1 ≤ effSlowPeriod config ∧
    effFastPeriod config < effSlowPeriod config ∧
    (∀ rt inp, config.enabled = true → config.market = .spot →
      runTick config rt inp =
        spotTick config { rt with candleCount := rt.candleCount + 1 } inp
          (computeSignal inp.closes (effFastPeriod config) (effSlowPeriod config))) ∧
    (∀ rt inp, config.enabled = true → config.market = .futures →
      runTick config rt inp =
        futuresTick config { rt with candleCount := rt.candleCount + 1 } inp
          (computeSignal inp.closes (effFastPeriod config) (effSlowPeriod config))) := by
  refine ⟨rfl, rfl, le_max_left _ _, le_max_left _ _, ?_, ?_, ?_⟩
  · calc effFastPeriod config < effFastPeriod config + 1 := lt_add_one _
      _ ≤ effSlowPeriod config := le_max_left _ _
  · intro rt inp he hm
    simp [runTick, he, hm]
  · intro rt inp he hm
    simp [runTick, he, hm]

/-- Witness for C10 at the spot fixture: the sanitized windows are strictly
ordered and the fixture's tick goes through the spot branch with them. -/
theorem period_sanitization_invariant_witness :
    effFastPeriod spotFixtureConfig < effSlowPeriod spotFixtureConfig ∧
    runTick spotFixtureConfig spotFixtureRuntime spotFixtureInput =
      spotTick spotFixtureConfig
        { spotFixtureRuntime with candleCount := spotFixtureRuntime.candleCount + 1 }
        spotFixtureInput
        (computeSignal spotFixtureInput.closes (effFastPeriod spotFixtureConfig)
          (effSlowPeriod spotFixtureConfig)) := by
  have h := period_sanitization_invariant spotFixtureConfig
  exact ⟨h.2.2.2.2.1, h.2.2.2.2.2.1 spotFixtureRuntime spotFixtureInput rfl rfl⟩

/-! ### C2: the moving-average cross signal -/

/-- Evaluation of `sma` at a natural window length: below the window the
result is `null`, otherwise the mean of the trailing `p` samples. -/
theorem sma_natCast (values : List ℚ) (p : ℕ) :
    sma values (p : ℚ) =
      if values.length < p then none
      else some ((values.drop (values.length - p)).sum / (p : ℚ)) := by
  unfold sma
  by_cases h : values.length < p
  · simp [h, by exact_mod_cast h]
  · have hle : p ≤ values.length := Nat.le_of_not_lt h
    have hcast : ¬ ((values.length : ℚ) < (p : ℚ)) := by exact_mod_cast h
    have hfloor : Int.toNat ⌊(values.length : ℚ) - (p : ℚ)⌋ = values.length - p := by
      have h1 : (values.length : ℚ) - (p : ℚ) = (((values.length : ℤ) - (p : ℤ) : ℤ) : ℚ) := by
        push_cast; ring
      rw [h1, Int.floor_intCast]
      omega
    simp [h, hcast, hfloor]

/-- C2 (amended): for every closing-price series and window lengths
`0 < fastPeriod < slowPeriod`: with fewer samples than `slowPeriod`, the
signal is `HOLD` and the slow average is null, while the fast average is
null only when the series is also shorter than `fastPeriod` and otherwise
equals the trailing `fastPeriod` mean; with at least `slowPeriod` samples,
the fast and slow values are the trailing arithmetic means and the signal is
`LONG` / `SHORT` / `HOLD` as the fast mean is greater than, less than, or
equal to the slow mean. -/
theorem computeSignal_spec (closes : List ℚ) (fp sp : ℕ) (_hfp : 0 < fp)
    (hlt : fp < sp) :
    (closes.length < sp →
      (computeSignal closes (fp : ℚ) (sp : ℚ)).signal = .HOLD ∧
      (computeSignal closes (fp : ℚ) (sp : ℚ)).slow = none ∧
      (closes.length < fp → (computeSignal closes (fp : ℚ) (sp : ℚ)).fast = none) ∧
      (fp ≤ closes.length →
        (computeSignal closes (fp : ℚ) (sp : ℚ)).fast =
          some ((closes.drop (closes.length - fp)).sum / (fp : ℚ)))) ∧
    (sp ≤ closes.length →
      (computeSignal closes (fp : ℚ) (sp : ℚ)).fast =
        some ((closes.drop (closes.length - fp)).sum / (fp : ℚ)) ∧
      (computeSignal closes (fp : ℚ) (sp : ℚ)).slow =
        some ((closes.drop (closes.length - sp)).sum / (sp : ℚ)) ∧
      (computeSignal closes (fp : ℚ) (sp : ℚ)).signal =
        (if (closes.drop (closes.length - fp)).sum / (fp : ℚ) >
              (closes.drop (closes.length - sp)).sum / (sp : ℚ) then Signal.LONG
         else if (closes.drop (closes.length - fp)).sum / (fp : ℚ) <
              (closes.drop (closes.length - sp)).sum / (sp : ℚ) then Signal.SHORT
         else Signal.HOLD)) := by
  constructor
  · intro hsp
    have hslow : sma closes (sp : ℚ) = none := by
      rw [sma_natCast]; simp [hsp]
    by_cases hf : closes.length < fp
    · have hfast : sma closes (fp : ℚ) = none := by
        rw [sma_natCast]; simp [hf]
      refine ⟨?_, ?_, ?_, ?_⟩ <;>
        simp [computeSignal, hfast, hslow]
      omega
    · have hfast : sma closes (fp : ℚ) =
          some ((closes.drop (closes.length - fp)).sum / (fp : ℚ)) := by
        rw [sma_natCast]; simp [hf]
      refine ⟨?_, ?_, ?_, ?_⟩ <;>
        simp [computeSignal, hfast, hslow]
      omega
  · intro hsp
    have hf : ¬ closes.length < fp := by omega
    have hs : ¬ closes.length < sp := by omega
    have hfast : sma closes (fp : ℚ) =
        some ((closes.drop (closes.length - fp)).sum / (fp : ℚ)) := by
      rw [sma_natCast]; simp [hf]
    have hslow : sma closes (sp : ℚ) =
        some ((closes.drop (closes.length - sp)).sum / (sp : ℚ)) := by
      rw [sma_natCast]; simp [hs]
    refine ⟨?_, ?_, ?_⟩ <;> simp only [computeSignal, hfast, hslow] <;> split_ifs <;> rfl

/-- Witness for C2 at the spec's end-to-end example: windows 2/3 on closes
`[1, 2, 3, 100]` give fast mean `51.5`, slow mean `35` and signal `LONG`. -/
theorem computeSignal_spec_witness :
    (computeSignal [1, 2, 3, 100] ((2 : ℕ) : ℚ) ((3 : ℕ) : ℚ)).signal = .LONG ∧
    (computeSignal [1, 2, 3, 100] ((2 : ℕ) : ℚ) ((3 : ℕ) : ℚ)).fast = some (103/2) ∧
    (computeSignal [1, 2, 3, 100] ((2 : ℕ) : ℚ) ((3 : ℕ) : ℚ)).slow = some 35 := by
  have h := (computeSignal_spec [1, 2, 3, 100] 2 3 (by norm_num) (by norm_num)).2
    (by norm_num)
  refine ⟨h.2.2.trans ?_, h.1.trans ?_, h.2.1.trans ?_⟩ <;> norm_num

/-- Counterexample to C2 as stated: with `fastPeriod = 1 < slowPeriod = 3`
and the two-sample series `[1, 2]` (fewer samples than `slowPeriod`), the
signal is `HOLD` but the fast average is `2`, not null — the claim's "null
averages" fails for the fast value. -/
theorem computeSignal_short_series_fast_not_null :
    [1, (2 : ℚ)].length < 3 ∧ (1 : ℚ) < 3 ∧
    (computeSignal [1, 2] 1 3).signal = .HOLD ∧
    (computeSignal [1, 2] 1 3).slow = none ∧
    (computeSignal [1, 2] 1 3).fast = some 2 := by
  have hf : sma [1, (2 : ℚ)] 1 = some 2 := by
    unfold sma
    norm_num
  have hs : sma [1, (2 : ℚ)] 3 = none := by
    unfold sma
    norm_num
  refine ⟨by norm_num, by norm_num, ?_, ?_, ?_⟩ <;> simp [computeSignal, hf, hs]

/-! ### Helper lemmas about the futures tick -/

/-- An enabled futures tick is the futures branch applied to the incremented
candle count and the sanitized-window signal. -/
theorem runTick_futures (config : BotConfig) (rt : Runtime) (inp : TickInput)
    (he : config.enabled = true) (hm : config.market = .futures) :
    runTick config rt inp =
      futuresTick config { rt with candleCount := rt.candleCount + 1 } inp
        (computeSignal inp.closes (effFastPeriod config) (effSlowPeriod config)) := by
  simp [runTick, he, hm]

/-- A failed loss check short-circuits the futures tick into a `BLOCKED`
snapshot with no decision and no orders. -/
theorem futuresTick_blocked (config : BotConfig) (rt : Runtime) (inp : TickInput)
    (sig : SignalOut)
    (h : (checkMaxLoss rt config inp.walletBalance inp.now).2.allowed = false) :
    futuresTick config rt inp sig =
      { status := .BLOCKED, decision := none, orders := []
        runtime := (checkMaxLoss rt config inp.walletBalance inp.now).1
        virtualBalance := config.virtualBalance } := by
  simp [futuresTick, h]

/-- A passed loss check with a firing stop-loss/take-profit and an open
position sends the tick into the close branch. -/
theorem futuresTick_close (config : BotConfig) (rt : Runtime) (inp : TickInput)
    (sig : SignalOut) (r : SlTp)
    (hA : (checkMaxLoss rt config inp.walletBalance inp.now).2.allowed = true)
    (hS : checkStopLossTakeProfit (some (futuresStatePosition inp)) config = some r)
    (hP : futuresPositionAmt inp ≠ 0) :
    futuresTick config rt inp sig =
      futuresClose config (checkMaxLoss rt config inp.walletBalance inp.now).1 inp r := by
  have habs : |futuresPositionAmt inp| > 0 := abs_pos.mpr hP
  simp [futuresTick, hA, hS, habs]

/-- A passed loss check with no firing stop-loss/take-profit (or no open
position) sends the tick into the entry/exit branch. -/
theorem futuresTick_entry (config : BotConfig) (rt : Runtime) (inp : TickInput)
    (sig : SignalOut)
    (hA : (checkMaxLoss rt config inp.walletBalance inp.now).2.allowed = true)
    (hS : checkStopLossTakeProfit (some (futuresStatePosition inp)) config = none ∨
      futuresPositionAmt inp = 0) :
    futuresTick config rt inp sig =
      futuresEntry config (checkMaxLoss rt config inp.walletBalance inp.now).1 inp sig := by
  cases hC : checkStopLossTakeProfit (some (futuresStatePosition inp)) config with
  | none => simp [futuresTick, hA, hC]
  | some r =>
    rcases hS with hS | hS
    · rw [hS] at hC; cases hC
    · simp [futuresTick, hA, hC, hS]

/-- Every entry/exit branch outcome carries status `RUNNING`. -/
theorem futuresEntry_status (config : BotConfig) (rt : Runtime) (inp : TickInput)
    (sig : SignalOut) : (futuresEntry config rt inp sig).status = .RUNNING := by
  simp only [futuresEntry]
  split_ifs <;> rfl

/-- The close branch's decision and orders: a full-size reduce-only market
close tagged with the stop-loss/take-profit reason; in dry-run mode the same
decision with no live order. -/
theorem futuresClose_decision_orders (config : BotConfig) (rt : Runtime)
    (inp : TickInput) (r : SlTp) :
    (futuresClose config rt inp r).decision =
      some { action := if config.dryRun then .DRY_CLOSE r.reason else .CLOSE r.reason
             reason := .ofClose r.reason
             qty := |futuresPositionAmt inp| } ∧
    (futuresClose config rt inp r).orders =
      (if config.dryRun then []
       else [{ side := if futuresPositionAmt inp > 0 then .SELL else .BUY
               type := .MARKET
               quantity := |futuresPositionAmt inp|
               reduceOnly := true }]) ∧
    (futuresClose config rt inp r).status = .RUNNING := by
  simp [futuresClose]

/-- With a valid quantity and a failed cooldown check, the entry branch
rejects with reason `COOLDOWN`. -/
theorem futuresEntry_cooldown (config : BotConfig) (rt : Runtime) (inp : TickInput)
    (sig : SignalOut)
    (hq : entryQtyValid config inp.closes = true)
    (hc : checkCooldown rt config = false) :
    (futuresEntry config rt inp sig).decision =
      some { action := .NONE, reason := .COOLDOWN, qty := entryQty config inp.closes } := by
  simp [futuresEntry, hq, hc]

/-- With no open position, a valid quantity, a passed cooldown check and a
`LONG` signal, the entry branch buys at the computed quantity and records
the order candle. -/
theorem futuresEntry_long (config : BotConfig) (rt : Runtime) (inp : TickInput)
    (sig : SignalOut)
    (hp : futuresPositionAmt inp = 0)
    (hq : entryQtyValid config inp.closes = true)
    (hc : checkCooldown rt config = true)
    (hs : sig.signal = .LONG) :
    (futuresEntry config rt inp sig).decision =
      some { action := if config.dryRun then .DRY_BUY else .BUY
             reason := .MA_CROSS
             qty := entryQty config inp.closes } ∧
    (futuresEntry config rt inp sig).runtime =
      { rt with lastOrderCandle := rt.candleCount } := by
  simp [futuresEntry, hp, hq, hc, hs]

/-! ### C3: the loss breaker blocks the tick -/

/-- C3: on any enabled futures tick whose (reset-adjusted) daily or
cumulative loss accumulator has reached or exceeded the configured
percentage of the wallet balance fetched that tick, the persisted status is
`BLOCKED`, no decision is produced and no order is sent; in particular, at
wallet balance 1000 and `maxDailyLossPercent = 5`, a daily loss of 49.9
leaves the tick `RUNNING` while 50.1 blocks it. -/
theorem loss_breaker_blocks (config : BotConfig) (risk : RiskConfig) (rt : Runtime)
    (inp : TickInput) (rtR : Runtime)
    (he : config.enabled = true) (hm : config.market = .futures)
    (hr : config.risk = some risk)
    (hreset : rtR = applyDailyReset { rt with candleCount := rt.candleCount + 1 } inp.now)
    (hloss : rtR.dailyLoss ≥ inp.walletBalance * numOr risk.maxDailyLossPercent 5 / 100 ∨
      rtR.totalLoss ≥ inp.walletBalance * numOr risk.maxTotalLossPercent 10 / 100) :
    (runTick config rt inp).status = .BLOCKED ∧
    (runTick config rt inp).decision = none ∧
    (runTick config rt inp).orders = [] := by
  set rt1 := { rt with candleCount := rt.candleCount + 1 } with hrt1
  have hallowed : (checkMaxLoss rt1 config inp.walletBalance inp.now).2.allowed = false := by
    unfold checkMaxLoss
    rw [hr]
    simp only [← hreset]
    by_cases hd : rtR.dailyLoss ≥ inp.walletBalance * numOr risk.maxDailyLossPercent 5 / 100
    · simp [hd]
    · have ht : rtR.totalLoss ≥ inp.walletBalance * numOr risk.maxTotalLossPercent 10 / 100 :=
        hloss.resolve_left hd
      simp [hd, ht]
  rw [runTick_futures config rt inp he hm,
    futuresTick_blocked config rt1 inp _ hallowed]
  exact ⟨rfl, rfl, rfl⟩

/-- Witness for C3: the futures fixture at wallet balance 1000 with daily
loss 50.1 is blocked with no decision; the same tick at daily loss 49.9 is
not blocked. -/
theorem loss_breaker_blocks_witness :
    (runTick futuresFixtureConfig runtimeDaily501 futuresFixtureInput).status = .BLOCKED ∧
    (runTick futuresFixtureConfig runtimeDaily501 futuresFixtureInput).decision = none ∧
    (runTick futuresFixtureConfig runtimeDaily499 futuresFixtureInput).status = .RUNNING := by
  have h := loss_breaker_blocks futuresFixtureConfig
    ⟨none, none, none, none, none, some 5, none⟩ runtimeDaily501 futuresFixtureInput
    (applyDailyReset { runtimeDaily501 with candleCount := runtimeDaily501.candleCount + 1 }
      futuresFixtureInput.now)
    rfl rfl rfl rfl ?_
  · refine ⟨h.1, h.2.1, ?_⟩
    have hallowed : (checkMaxLoss { runtimeDaily499 with candleCount := 1 }
        futuresFixtureConfig futuresFixtureInput.walletBalance
        futuresFixtureInput.now).2.allowed = true := by
      unfold checkMaxLoss applyDailyReset
      norm_num [futuresFixtureConfig, runtimeDaily499, futuresFixtureInput, numOr, dayMs]
    rw [runTick_futures _ _ _ rfl rfl]
    have : ({ runtimeDaily499 with candleCount := runtimeDaily499.candleCount + 1 } : Runtime) =
        { runtimeDaily499 with candleCount := 1 } := by
      norm_num [runtimeDaily499]
    rw [this, futuresTick_entry _ _ _ _ hallowed (Or.inr rfl)]
    exact futuresEntry_status _ _ _ _
  · left
    show (applyDailyReset { runtimeDaily501 with candleCount := runtimeDaily501.candleCount + 1 }
      futuresFixtureInput.now).dailyLoss ≥ _
    norm_num [applyDailyReset, runtimeDaily501, futuresFixtureInput, numOr, dayMs]

/-! ### C4: stop-loss / take-profit forces a full reduce-only close -/

/-- C4: for an open position with nonzero entry and mark price, the
sign-adjusted percentage P&L decides the check exactly at the thresholds
(close with `STOP_LOSS` when P&L ≤ −stopLossPercent, with `TAKE_PROFIT`
when P&L ≥ takeProfitPercent, otherwise no close); on a live futures tick
that passes the loss breaker, a firing check forces a reduce-only market
close of the full position size regardless of the signal; and concretely a
long entered at 100 with stop-loss 1.0 closes at mark 98.9 and does not
close at mark 99.1. -/
theorem sltp_forces_full_close :
    (∀ (p : StatePosition) (config : BotConfig) (risk : RiskConfig),
      config.risk = some risk → p.positionAmt ≠ 0 → p.entryPrice ≠ 0 →
      slTpMarkPrice p ≠ 0 →
      checkStopLossTakeProfit (some p) config =
        (if slTpActualPnl p ≤ -(numOr risk.stopLossPercent 1) then
           some ⟨.STOP_LOSS, slTpActualPnl p⟩
         else if slTpActualPnl p ≥ numOr risk.takeProfitPercent (3/2) then
           some ⟨.TAKE_PROFIT, slTpActualPnl p⟩
         else none)) ∧
    (∀ (config : BotConfig) (rt : Runtime) (inp : TickInput) (r : SlTp),
      config.enabled = true → config.market = .futures → config.dryRun = false →
      (checkMaxLoss { rt with candleCount := rt.candleCount + 1 } config
        inp.walletBalance inp.now).2.allowed = true →
      checkStopLossTakeProfit (some (futuresStatePosition inp)) config = some r →
      futuresPositionAmt inp ≠ 0 →
      (runTick config rt inp).orders =
        [{ side := if futuresPositionAmt inp > 0 then .SELL else .BUY
           type := .MARKET
           quantity := |futuresPositionAmt inp|
           reduceOnly := true }] ∧
      (runTick config rt inp).decision =
        some { action := .CLOSE r.reason
               reason := .ofClose r.reason
               qty := |futuresPositionAmt inp| }) ∧
    checkStopLossTakeProfit (some ⟨1/2, 100, some (989/10)⟩) slTpFixtureConfig =
      some ⟨.STOP_LOSS, -(11/10)⟩ ∧
    checkStopLossTakeProfit (some ⟨1/2, 100, some (991/10)⟩) slTpFixtureConfig = none := by
  have hmain : ∀ (p : StatePosition) (config : BotConfig) (risk : RiskConfig),
      config.risk = some risk → p.positionAmt ≠ 0 → p.entryPrice ≠ 0 →
      slTpMarkPrice p ≠ 0 →
      checkStopLossTakeProfit (some p) config =
        (if slTpActualPnl p ≤ -(numOr risk.stopLossPercent 1) then
           some ⟨.STOP_LOSS, slTpActualPnl p⟩
         else if slTpActualPnl p ≥ numOr risk.takeProfitPercent (3/2) then
           some ⟨.TAKE_PROFIT, slTpActualPnl p⟩
         else none) := by
    intro p config risk hr hpa hpe hmk
    unfold checkStopLossTakeProfit
    rw [hr]
    simp only [abs_eq_zero, hpa, if_false, hpe, hmk, or_self, false_or]
  refine ⟨hmain, ?_, ?_, ?_⟩
  · intro config rt inp r he hm hd hA hS hP
    rw [runTick_futures config rt inp he hm,
      futuresTick_close config _ inp _ r hA hS hP]
    have h := futuresClose_decision_orders config
      (checkMaxLoss { rt with candleCount := rt.candleCount + 1 } config
        inp.walletBalance inp.now).1 inp r
    rw [hd] at h
    simp at h
    exact ⟨h.2.1, h.1⟩
  · rw [hmain ⟨1/2, 100, some (989/10)⟩ slTpFixtureConfig
      ⟨none, none, none, some 1, some (3/2), none, none⟩ rfl
      (by norm_num) (by norm_num) (by norm_num [slTpMarkPrice])]
    norm_num [slTpActualPnl, slTpMarkPrice, numOr]
  · rw [hmain ⟨1/2, 100, some (991/10)⟩ slTpFixtureConfig
      ⟨none, none, none, some 1, some (3/2), none, none⟩ rfl
      (by norm_num) (by norm_num) (by norm_num [slTpMarkPrice])]
    norm_num [slTpActualPnl, slTpMarkPrice, numOr]

/-- Witness for C4 at the long-at-100 fixture: entry 100, stop-loss 1.0%,
mark 98.9 yields a stop-loss close with P&L −1.1%. -/
theorem sltp_forces_full_close_witness :
    checkStopLossTakeProfit (some ⟨1/2, 100, some (989/10)⟩) slTpFixtureConfig =
      some ⟨.STOP_LOSS, -(11/10)⟩ := by
  have h := sltp_forces_full_close.1 ⟨1/2, 100, some (989/10)⟩ slTpFixtureConfig
    ⟨none, none, none, some 1, some (3/2), none, none⟩ rfl
    (by norm_num) (by norm_num) (by norm_num [slTpMarkPrice])
  rw [h]
  norm_num [slTpActualPnl, slTpMarkPrice, numOr]

/-! ### C6: the cooldown gate -/

/-- The loss check only touches the loss accumulators and the reset time,
never the candle counters. -/
theorem checkMaxLoss_fst_counts (rt : Runtime) (config : BotConfig)
    (w now : ℚ) :
    ((checkMaxLoss rt config w now).1).candleCount = rt.candleCount ∧
    ((checkMaxLoss rt config w now).1).lastOrderCandle = rt.lastOrderCandle := by
  rcases hr : config.risk with _ | risk
  · simp [checkMaxLoss, hr]
  · simp only [checkMaxLoss, hr, applyDailyReset]
    split_ifs <;> simp

/-- The cooldown check only reads the candle counters. -/
theorem checkCooldown_counts_congr (rt1 rt2 : Runtime) (config : BotConfig)
    (h1 : rt1.candleCount = rt2.candleCount)
    (h2 : rt1.lastOrderCandle = rt2.lastOrderCandle) :
    checkCooldown rt1 config = checkCooldown rt2 config := by
  unfold checkCooldown
  rw [h1, h2]

/-- C6: with `cooldownCandles = c > 0` and the last order recorded at candle
`N`, the cooldown check fails at every candle before `N + c` and passes at
`N + c`; on a futures tick that passes the loss breaker with no open
position and a valid quantity, a failed cooldown check is recorded as
decision reason `COOLDOWN`, and a passed one together with a `LONG` signal
places the buy. -/
theorem cooldown_gate :
    (∀ (config : BotConfig) (pol : PositionPolicy) (c : ℚ) (rt : Runtime) (N M : ℚ),
      config.position = some pol → pol.cooldownCandles = some c → 0 < c →
      rt.lastOrderCandle = N → rt.candleCount = M →
      (M < N + c → checkCooldown rt config = false) ∧
      (M = N + c → checkCooldown rt config = true)) ∧
    (∀ (config : BotConfig) (rt : Runtime) (inp : TickInput),
      config.enabled = true → config.market = .futures →
      (checkMaxLoss { rt with candleCount := rt.candleCount + 1 } config
        inp.walletBalance inp.now).2.allowed = true →
      inp.position = none →
      entryQtyValid config inp.closes = true →
      checkCooldown { rt with candleCount := rt.candleCount + 1 } config = false →
      (runTick config rt inp).decision =
        some { action := .NONE, reason := .COOLDOWN, qty := entryQty config inp.closes }) ∧
    (∀ (config : BotConfig) (rt : Runtime) (inp : TickInput),
      config.enabled = true → config.market = .futures →
      (checkMaxLoss { rt with candleCount := rt.candleCount + 1 } config
        inp.walletBalance inp.now).2.allowed = true →
      inp.position = none →
      entryQtyValid config inp.closes = true →
      checkCooldown { rt with candleCount := rt.candleCount + 1 } config = true →
      (computeSignal inp.closes (effFastPeriod config) (effSlowPeriod config)).signal = .LONG →
      (runTick config rt inp).decision =
        some { action := if config.dryRun then .DRY_BUY else .BUY
               reason := .MA_CROSS
               qty := entryQty config inp.closes }) := by
  refine ⟨?_, ?_, ?_⟩
  · intro config pol c rt N M hpos hcc hc hN hM
    have hc0 : ¬ (c = 0) := ne_of_gt hc
    constructor
    · intro hlt
      unfold checkCooldown
      rw [hpos]
      simp only [hcc, numOr, hc0, if_false, hN, hM]
      simp only [decide_eq_false_iff_not, not_le]
      linarith
    · intro heq
      unfold checkCooldown
      rw [hpos]
      simp only [hcc, numOr, hc0, if_false, hN, hM]
      simp only [decide_eq_true_eq, heq]
      linarith
  · intro config rt inp he hm hA hpos hq hc
    have hp0 : futuresPositionAmt inp = 0 := by
      simp [futuresPositionAmt, hpos]
    rw [runTick_futures config rt inp he hm,
      futuresTick_entry config _ inp _ hA (Or.inr hp0)]
    have hcounts := checkMaxLoss_fst_counts { rt with candleCount := rt.candleCount + 1 }
      config inp.walletBalance inp.now
    have hc' : checkCooldown (checkMaxLoss { rt with candleCount := rt.candleCount + 1 }
        config inp.walletBalance inp.now).1 config = false := by
      rw [checkCooldown_counts_congr _ { rt with candleCount := rt.candleCount + 1 }
        config hcounts.1 hcounts.2]
      exact hc
    exact futuresEntry_cooldown config _ inp _ hq hc'
  · intro config rt inp he hm hA hpos hq hc hsig
    have hp0 : futuresPositionAmt inp = 0 := by
      simp [futuresPositionAmt, hpos]
    rw [runTick_futures config rt inp he hm,
      futuresTick_entry config _ inp _ hA (Or.inr hp0)]
    have hcounts := checkMaxLoss_fst_counts { rt with candleCount := rt.candleCount + 1 }
      config inp.walletBalance inp.now
    have hc' : checkCooldown (checkMaxLoss { rt with candleCount := rt.candleCount + 1 }
        config inp.walletBalance inp.now).1 config = true := by
      rw [checkCooldown_counts_congr _ { rt with candleCount := rt.candleCount + 1 }
        config hcounts.1 hcounts.2]
      exact hc
    exact (futuresEntry_long config _ inp _ hp0 hq hc' hsig).1

/-- Witness for C6 at `cooldownCandles = 3` with the last order at candle 4:
the attempt one candle later (candle count 5 after increment) is rejected
with reason `COOLDOWN`, and the attempt at candle 7 = 4 + 3 buys; the
computed quantity is 10. -/
theorem cooldown_gate_witness :
    (runTick cooldownFixtureConfig ⟨4, 4, 0, 0, 0⟩ cooldownFixtureInput).decision =
      some { action := .NONE, reason := .COOLDOWN
             qty := entryQty cooldownFixtureConfig cooldownFixtureInput.closes } ∧
    (runTick cooldownFixtureConfig ⟨4, 6, 0, 0, 0⟩ cooldownFixtureInput).decision =
      some { action := .DRY_BUY, reason := .MA_CROSS
             qty := entryQty cooldownFixtureConfig cooldownFixtureInput.closes } ∧
    entryQty cooldownFixtureConfig cooldownFixtureInput.closes = 10 := by
  have hq : entryQtyValid cooldownFixtureConfig cooldownFixtureInput.closes = true := by
    have hlast : entryLastPrice cooldownFixtureInput.closes = some 2 := rfl
    have hqty : entryQty cooldownFixtureConfig cooldownFixtureInput.closes = 10 := by
      unfold entryQty entryRawQty entryQuoteAmount entryStepSize
      rw [hlast]
      norm_num [cooldownFixtureConfig, toNumber, roundStep]
    unfold entryQtyValid
    rw [hlast, hqty]
    norm_num [entryStepSize, cooldownFixtureConfig, toNumber]
  have hqty : entryQty cooldownFixtureConfig cooldownFixtureInput.closes = 10 := by
    have hlast : entryLastPrice cooldownFixtureInput.closes = some 2 := rfl
    unfold entryQty entryRawQty entryQuoteAmount entryStepSize
    rw [hlast]
    norm_num [cooldownFixtureConfig, toNumber, roundStep]
  have hsig : (computeSignal cooldownFixtureInput.closes
      (effFastPeriod cooldownFixtureConfig) (effSlowPeriod cooldownFixtureConfig)).signal =
      .LONG := by
    have hf : effFastPeriod cooldownFixtureConfig = 1 := by
      norm_num [effFastPeriod, cooldownFixtureConfig, toNumber]
    have hs : effSlowPeriod cooldownFixtureConfig = 2 := by
      norm_num [effSlowPeriod, effFastPeriod, cooldownFixtureConfig, toNumber]
    rw [hf, hs]
    have h1 : sma [1, (2 : ℚ)] 1 = some 2 := by
      unfold sma
      norm_num
    have h2 : sma [1, (2 : ℚ)] 2 = some (3/2) := by
      unfold sma
      norm_num
    show (computeSignal [1, (2 : ℚ)] 1 2).signal = .LONG
    simp [computeSignal, h1, h2]
    norm_num
  refine ⟨?_, ?_, hqty⟩
  · refine cooldown_gate.2.1 cooldownFixtureConfig ⟨4, 4, 0, 0, 0⟩ cooldownFixtureInput
      rfl rfl rfl rfl hq ?_
    exact (cooldown_gate.1 cooldownFixtureConfig ⟨some true, some 3⟩ 3 _ 4 _ rfl rfl
      (by norm_num) rfl rfl).1 (by norm_num)
  · have h := cooldown_gate.2.2 cooldownFixtureConfig ⟨4, 6, 0, 0, 0⟩ cooldownFixtureInput
      rfl rfl rfl rfl hq
      ((cooldown_gate.1 cooldownFixtureConfig ⟨some true, some 3⟩ 3 _ 4 _ rfl rfl
        (by norm_num) rfl rfl).2 (by norm_num)) hsig
    simpa [cooldownFixtureConfig] using h

/-! ### C1: ordering of the risk checks -/

/-- An enabled spot tick is the spot branch applied to the incremented
candle count and the sanitized-window signal. -/
theorem runTick_spot (config : BotConfig) (rt : Runtime) (inp : TickInput)
    (he : config.enabled = true) (hm : config.market = .spot) :
    runTick config rt inp =
      spotTick config { rt with candleCount := rt.candleCount + 1 } inp
        (computeSignal inp.closes (effFastPeriod config) (effSlowPeriod config)) := by
  simp [runTick, he, hm]

/-- C1 (amended): on every enabled futures tick the three Risk Engine checks
run in strict order, each short-circuiting the rest: a failed loss breaker
yields `BLOCKED` with no decision and no orders; otherwise a firing
stop-loss/take-profit with an open position yields the close branch's
decision unconditionally; otherwise the tick is exactly the entry/exit
decision branch with status `RUNNING`.  (The spot branch runs none of these
checks — see the counterexample.) -/
theorem futures_risk_checks_ordered (config : BotConfig) (rt : Runtime)
    (inp : TickInput) (he : config.enabled = true) (hm : config.market = .futures) :
    ((checkMaxLoss { rt with candleCount := rt.candleCount + 1 } config
        inp.walletBalance inp.now).2.allowed = false →
      (runTick config rt inp).status = .BLOCKED ∧
      (runTick config rt inp).decision = none ∧
      (runTick config rt inp).orders = [] ∧
      (runTick config rt inp).runtime =
        (checkMaxLoss { rt with candleCount := rt.candleCount + 1 } config
          inp.walletBalance inp.now).1) ∧
    ((checkMaxLoss { rt with candleCount := rt.candleCount + 1 } config
        inp.walletBalance inp.now).2.allowed = true →
      ∀ r, checkStopLossTakeProfit (some (futuresStatePosition inp)) config = some r →
        futuresPositionAmt inp ≠ 0 →
        runTick config rt inp =
          futuresClose config (checkMaxLoss { rt with candleCount := rt.candleCount + 1 }
            config inp.walletBalance inp.now).1 inp r ∧
        (runTick config rt inp).decision =
          some { action := if config.dryRun then .DRY_CLOSE r.reason else .CLOSE r.reason
                 reason := .ofClose r.reason
                 qty := |futuresPositionAmt inp| } ∧
        (runTick config rt inp).status = .RUNNING) ∧
    ((checkMaxLoss { rt with candleCount := rt.candleCount + 1 } config
        inp.walletBalance inp.now).2.allowed = true →
      (checkStopLossTakeProfit (some (futuresStatePosition inp)) config = none ∨
        futuresPositionAmt inp = 0) →
      runTick config rt inp =
        futuresEntry config (checkMaxLoss { rt with candleCount := rt.candleCount + 1 }
          config inp.walletBalance inp.now).1 inp
          (computeSignal inp.closes (effFastPeriod config) (effSlowPeriod config)) ∧
      (runTick config rt inp).status = .RUNNING) := by
  refine ⟨?_, ?_, ?_⟩
  · intro hA
    rw [runTick_futures config rt inp he hm, futuresTick_blocked config _ inp _ hA]
    exact ⟨rfl, rfl, rfl, rfl⟩
  · intro hA r hS hP
    have hclose := futuresTick_close config
      { rt with candleCount := rt.candleCount + 1 } inp
      (computeSignal inp.closes (effFastPeriod config) (effSlowPeriod config)) r hA hS hP
    rw [runTick_futures config rt inp he hm, hclose]
    have h := futuresClose_decision_orders config
      (checkMaxLoss { rt with candleCount := rt.candleCount + 1 } config
        inp.walletBalance inp.now).1 inp r
    exact ⟨rfl, h.1, h.2.2⟩
  · intro hA hS
    have hentry := futuresTick_entry config
      { rt with candleCount := rt.candleCount + 1 } inp
      (computeSignal inp.closes (effFastPeriod config) (effSlowPeriod config)) hA hS
    rw [runTick_futures config rt inp he hm, hentry]
    exact ⟨rfl, futuresEntry_status _ _ _ _⟩

/-- Witness for the amended C1 at the blocked futures fixture: with daily
loss 50.1 of a 50-unit limit, the loss breaker short-circuits the tick into
`BLOCKED` with no decision and no orders. -/
theorem futures_risk_checks_ordered_witness :
    (runTick futuresFixtureConfig runtimeDaily501 futuresFixtureInput).status = .BLOCKED ∧
    (runTick futuresFixtureConfig runtimeDaily501 futuresFixtureInput).decision = none ∧
    (runTick futuresFixtureConfig runtimeDaily501 futuresFixtureInput).orders = [] := by
  have hA : (checkMaxLoss { runtimeDaily501 with
      candleCount := runtimeDaily501.candleCount + 1 } futuresFixtureConfig
      futuresFixtureInput.walletBalance futuresFixtureInput.now).2.allowed = false := by
    simp only [checkMaxLoss, futuresFixtureConfig, applyDailyReset, runtimeDaily501,
      futuresFixtureInput, numOr, dayMs]
    norm_num
  have h := (futures_risk_checks_ordered futuresFixtureConfig runtimeDaily501
    futuresFixtureInput rfl rfl).1 hA
  exact ⟨h.1, h.2.1, h.2.2.1⟩

/-- Counterexample to C1 as stated: a spot tick whose loss breaker would
block (daily loss 1000 against a 50-unit limit) and whose cooldown gate
would reject (one candle since the last order, cooldown 3) nevertheless
executes a dry-run buy against the virtual ledger — the spot branch runs
none of the Risk Engine checks. -/
theorem spot_tick_skips_risk_checks :
    (checkMaxLoss { spotFixtureRuntime with
        candleCount := spotFixtureRuntime.candleCount + 1 } spotFixtureConfig
      spotFixtureInput.walletBalance spotFixtureInput.now).2.allowed = false ∧
    checkCooldown { spotFixtureRuntime with
        candleCount := spotFixtureRuntime.candleCount + 1 } spotFixtureConfig = false ∧
    (runTick spotFixtureConfig spotFixtureRuntime spotFixtureInput).status = .RUNNING ∧
    (runTick spotFixtureConfig spotFixtureRuntime spotFixtureInput).decision =
      some { action := .DRY_BUY, reason := .MA_CROSS, qty := 10 } ∧
    (runTick spotFixtureConfig spotFixtureRuntime spotFixtureInput).virtualBalance =
      some ⟨1000, 980, 10⟩ := by
  have hA : (checkMaxLoss { spotFixtureRuntime with
      candleCount := spotFixtureRuntime.candleCount + 1 } spotFixtureConfig
      spotFixtureInput.walletBalance spotFixtureInput.now).2.allowed = false := by
    simp only [checkMaxLoss, spotFixtureConfig, applyDailyReset, spotFixtureRuntime,
      spotFixtureInput, numOr, dayMs]
    norm_num
  have hcool : checkCooldown { spotFixtureRuntime with
      candleCount := spotFixtureRuntime.candleCount + 1 } spotFixtureConfig = false := by
    simp only [checkCooldown, spotFixtureConfig, spotFixtureRuntime, numOr]
    norm_num
  have hqty : entryQty spotFixtureConfig spotFixtureInput.closes = 10 := by
    have hlast : entryLastPrice spotFixtureInput.closes = some 2 := rfl
    unfold entryQty entryRawQty entryQuoteAmount entryStepSize
    rw [hlast]
    norm_num [spotFixtureConfig, toNumber, roundStep]
  have hsig : computeSignal spotFixtureInput.closes (effFastPeriod spotFixtureConfig)
      (effSlowPeriod spotFixtureConfig) = ⟨.LONG, some 2, some (3/2)⟩ := by
    have hf : effFastPeriod spotFixtureConfig = 1 := by
      norm_num [effFastPeriod, spotFixtureConfig, toNumber]
    have hs : effSlowPeriod spotFixtureConfig = 2 := by
      norm_num [effSlowPeriod, effFastPeriod, spotFixtureConfig, toNumber]
    rw [hf, hs]
    have h1 : sma [1, (2 : ℚ)] 1 = some 2 := by
      unfold sma
      norm_num
    have h2 : sma [1, (2 : ℚ)] 2 = some (3/2) := by
      unfold sma
      norm_num
    show computeSignal [1, (2 : ℚ)] 1 2 = _
    simp [computeSignal, h1, h2]
    norm_num
  have hrun : runTick spotFixtureConfig spotFixtureRuntime spotFixtureInput =
      { status := .RUNNING
        decision := some { action := .DRY_BUY, reason := .MA_CROSS, qty := 10 }
        orders := []
        runtime := { spotFixtureRuntime with
          candleCount := spotFixtureRuntime.candleCount + 1 }
        virtualBalance := some ⟨1000, 980, 10⟩ } := by
    rw [runTick_spot spotFixtureConfig spotFixtureRuntime spotFixtureInput rfl rfl]
    unfold spotTick
    rw [hqty, hsig]
    norm_num [spotFixtureConfig, spotFixtureInput, updateVirtualBalance, entryLastPrice,
      defaultVirtualBalance]
  exact ⟨hA, hcool, by rw [hrun], by rw [hrun], by rw [hrun]⟩

/-! ### C8: failures are caught at the loop boundary -/

/-- C8: a failure thrown during a tick's fetch/compute/decide/execute
pipeline is caught at the loop boundary: the persisted snapshot has status
`ERROR`, `ok = false` and carries the failure's message and response detail,
and the loop control continues to the next tick; a successful tick persists
its computed status; no iteration outcome ever terminates the loop. -/
theorem tick_failure_caught_loop_continues :
    (∀ (config : BotConfig) (rt : Runtime) (e : JsError),
      runBotTick config rt (.error e) =
        ({ ok := false, status := .ERROR, error := some e }, .nextTick)) ∧
    (∀ (config : BotConfig) (rt : Runtime) (inp : TickInput),
      runBotTick config rt (.ok inp) =
        ({ ok := true, status := (runTick config rt inp).status, error := none }, .nextTick)) ∧
    (∀ r : Except JsError TickOut, (runBotIteration r).2 = .nextTick) := by
  refine ⟨fun _ _ _ => rfl, fun _ _ _ => rfl, fun r => ?_⟩
  cases r <;> rfl

/-! ### C7 and C9: scheduler reconciliation -/

/-- One start step either leaves the state unchanged or, when the id is not
yet tracked, appends the id to both the bookkeeping set and the live-loop
list. -/
theorem schedStartStep_cases (hT hM : Bool) (s : SchedulerState) (b : Bot) :
    schedStartStep hT hM s b = s ∨
    (b.id ∉ s.runningBots ∧
      schedStartStep hT hM s b =
        { s with runningBots := s.runningBots ++ [b.id]
                 liveLoops := s.liveLoops ++ [b.id] }) := by
  unfold schedStartStep
  by_cases h1 : s.runningBots.contains b.id = true
  · rw [if_pos h1]; exact Or.inl rfl
  · rw [if_neg h1]
    by_cases h2 : (!(if b.useTestnet then hT else hM)) = true
    · rw [if_pos h2]; exact Or.inl rfl
    · rw [if_neg h2]; exact Or.inr ⟨by simpa using h1, rfl⟩

/-- One start step never touches the stop-signal list. -/
theorem schedStartStep_stopSignals (hT hM : Bool) (s : SchedulerState) (b : Bot) :
    (schedStartStep hT hM s b).stopSignals = s.stopSignals := by
  rcases schedStartStep_cases hT hM s b with h | ⟨-, h⟩ <;> rw [h]

/-- One start step only appends to the live-loop list. -/
theorem schedStartStep_liveLoops (hT hM : Bool) (s : SchedulerState) (b : Bot) :
    ∃ t, (schedStartStep hT hM s b).liveLoops = s.liveLoops ++ t := by
  rcases schedStartStep_cases hT hM s b with h | ⟨-, h⟩
  · exact ⟨[], by rw [h]; simp⟩
  · exact ⟨[b.id], by rw [h]⟩

/-- The start fold never touches the stop-signal list and only appends to
the live-loop list. -/
theorem schedFold_stop_live (hT hM : Bool) :
    ∀ (l : List Bot) (s : SchedulerState),
      (l.foldl (schedStartStep hT hM) s).stopSignals = s.stopSignals ∧
      ∃ t, (l.foldl (schedStartStep hT hM) s).liveLoops = s.liveLoops ++ t := by
  intro l
  induction l with
  | nil => exact fun s => ⟨rfl, [], by simp⟩
  | cons b l ih =>
    intro s
    have hstep := schedStartStep_stopSignals hT hM s b
    obtain ⟨t1, ht1⟩ := schedStartStep_liveLoops hT hM s b
    obtain ⟨hstop, t2, ht2⟩ := ih (schedStartStep hT hM s b)
    refine ⟨by rw [List.foldl_cons, hstop, hstep], t1 ++ t2, ?_⟩
    rw [List.foldl_cons, ht2, ht1, List.append_assoc]

/-- C7 (behaviour the code actually has): no reconciliation pass ever
delivers a stop signal, and the live-loop list only grows — a pass never
ends a loop.  Concretely, starting bot 1 and then reconciling against an
empty bot list (its config was deleted) leaves the bookkeeping set empty
while the loop is still live and no stop signal was issued. -/
theorem deleted_bot_loop_keeps_running :
    (∀ (hT hM : Bool) (bots : List Bot) (s : SchedulerState),
      (syncBots hT hM bots s).stopSignals = s.stopSignals ∧
      ∃ t, (syncBots hT hM bots s).liveLoops = s.liveLoops ++ t) ∧
    syncBots true true [] (syncBots true true [⟨1, true⟩] ⟨[], [], []⟩) =
      ⟨[], [1], []⟩ := by
  constructor
  · intro hT hM bots s
    obtain ⟨hstop, t, ht⟩ := schedFold_stop_live hT hM bots s
    exact ⟨hstop, t, ht⟩
  · rfl

/-- The start fold preserves the scheduler invariant, and keeps every live
loop's id inside any universe `U` containing the prior live ids and the ids
of the processed bots. -/
theorem schedFold_inv (hT hM : Bool) :
    ∀ (l : List Bot) (s : SchedulerState) (U : List ℕ),
      SchedInv s → (∀ id ∈ s.liveLoops, id ∈ U) → (∀ b ∈ l, b.id ∈ U) →
      SchedInv (l.foldl (schedStartStep hT hM) s) ∧
      (∀ id ∈ (l.foldl (schedStartStep hT hM) s).liveLoops, id ∈ U) := by
  intro l
  induction l with
  | nil => exact fun s U h1 h2 _ => ⟨h1, h2⟩
  | cons b l ih =>
    intro s U h1 h2 h3
    have hstep : SchedInv (schedStartStep hT hM s b) ∧
        (∀ id ∈ (schedStartStep hT hM s b).liveLoops, id ∈ U) := by
      rcases schedStartStep_cases hT hM s b with h | ⟨hnotrun, h⟩
      · rw [h]; exact ⟨h1, h2⟩
      · have hnotlive : b.id ∉ s.liveLoops := fun hmem => hnotrun (h1.2 b.id hmem)
        rw [h]
        refine ⟨⟨?_, ?_⟩, ?_⟩
        · rw [List.nodup_append]
          refine ⟨h1.1, List.nodup_singleton _, ?_⟩
          intro a ha hb
          exact hnotlive ((List.mem_singleton.mp hb) ▸ ha)
        · intro id hid
          rcases List.mem_append.mp hid with hid | hid
          · exact List.mem_append_left _ (h1.2 id hid)
          · exact List.mem_append_right _ hid
        · intro id hid
          rcases List.mem_append.mp hid with hid | hid
          · exact h2 id hid
          · rw [List.eq_of_mem_singleton hid]
            exact h3 b (List.mem_cons_self b l)
    exact ih (schedStartStep hT hM s b) U hstep.1 hstep.2
      (fun b' hb' => h3 b' (List.mem_cons_of_mem _ hb'))

/-- C9 (amended): a reconciliation pass never starts a second loop for an
id still present in the bookkeeping set; as long as each pass's bot list
retains every id that has a live loop (no delete-and-recreate), the
at-most-one-loop-per-id invariant is preserved, so repeated passes are
idempotent.  (If a config is deleted and later re-created, the pass starts
a second loop while the first still runs — see the counterexample.) -/
theorem sync_idempotent_when_no_deletion (hT hM : Bool) (bots : List Bot)
    (s : SchedulerState) (hInv : SchedInv s)
    (hlive : ∀ id ∈ s.liveLoops, id ∈ bots.map Bot.id) :
    SchedInv (syncBots hT hM bots s) ∧
    ∀ id, (syncBots hT hM bots s).liveLoops.count id ≤ 1 := by
  obtain ⟨hInv1, hU⟩ := schedFold_inv hT hM bots s (bots.map Bot.id) hInv hlive
    (fun b hb => List.mem_map_of_mem Bot.id hb)
  have hres : SchedInv (syncBots hT hM bots s) := by
    unfold syncBots
    refine ⟨hInv1.1, ?_⟩
    intro id hid
    refine List.mem_filter.mpr ⟨hInv1.2 id hid, ?_⟩
    simpa using hU id hid
  exact ⟨hres, fun id => List.nodup_iff_count_le_one.mp hres.1 id⟩

/-- Witness for the amended C9: a first pass over bot 1 establishes the
invariant, and bot 1's loop is unique. -/
theorem sync_idempotent_when_no_deletion_witness :
    SchedInv (syncBots true true [⟨1, true⟩] ⟨[], [], []⟩) ∧
    (syncBots true true [⟨1, true⟩] ⟨[], [], []⟩).liveLoops.count 1 ≤ 1 := by
  have h := sync_idempotent_when_no_deletion true true [⟨1, true⟩] ⟨[], [], []⟩
    ⟨List.nodup_nil, by simp⟩ (by simp)
  exact ⟨h.1, h.2 1⟩

/-- Counterexample to C9 as stated: starting bot 1, reconciling after its
config is deleted (the loop keeps running but leaves the bookkeeping set),
and reconciling again after the config reappears starts a second loop for
id 1 while the first is still live — two loops for the same id. -/
theorem sync_delete_recreate_duplicates_loop :
    (syncBots true true [] (syncBots true true [⟨1, true⟩]
      ⟨[], [], []⟩)).liveLoops.count 1 = 1 ∧
    (syncBots true true [⟨1, true⟩] (syncBots true true []
      (syncBots true true [⟨1, true⟩] ⟨[], [], []⟩))).liveLoops.count 1 = 2 := by
  constructor <;> rfl

end BinanceBot
